import Mathlib

/-!
Verification development for the burnout-risk prediction services
(`ml/src/predict.py`, `ml/src/train.py`, `ml/src/evaluate.py`,
`ml/src/simple_model.py`).  Python floats are embedded as rationals (`ℚ`),
Python dicts as association lists, and fallible Python code as
`Option`/`Except`-valued functions.
-/

namespace Burnout

/-- A Python value as it can appear in the raw feature mapping passed to
`PredictionService.predict`.  `num` covers `int` and `float`; `bool` is kept
separate because Python's `isinstance(v, (int, float))` also accepts `bool`
(a subclass of `int`). -/
inductive Value where
  | num (q : ℚ)
  | bool (b : Bool)
  | str (s : String)
  | none
deriving DecidableEq

/-- Python's `isinstance(value, (int, float))` test used in
`PredictionService._prepare_features`:  true for numbers and booleans. -/
def Value.isNumber : Value → Bool
  | .num _ => true
  | .bool _ => true
  | .str _ => false
  | .none => false

/-- Python's `float(value)` on a value accepted by `isNumber`
(`float(True) = 1.0`, `float(False) = 0.0`); other values are never
coerced by the source, so they map to `0`. -/
def Value.toRat : Value → ℚ
  | .num q => q
  | .bool b => if b then 1 else 0
  | _ => 0

/-- The raw feature mapping (a Python `Dict[str, Any]`). -/
abbrev FeatureMap := List (String × Value)

/-- `features.get(name, default)` on the raw mapping. -/
def getDefault (fm : FeatureMap) (name : String) (default : Value) : Value :=
  (fm.lookup name).getD default

/-- `expected_features` in `PredictionService._prepare_features`
(`predict.py`, lines 134-145). -/
def expectedFeatures : List String :=
  [ "work_hours_per_week", "meeting_hours_per_week", "email_count_per_day",
    "stress_level", "workload_score", "work_life_balance", "team_size",
    "remote_work_percentage", "overtime_hours", "deadline_pressure" ]

/-- `self.feature_names` in `BurnoutPredictionModel.__init__`
(`simple_model.py`, lines 30-41). -/
def modelFeatureNames : List String :=
  [ "work_hours_per_week", "meeting_hours_per_week", "email_count_per_day",
    "stress_level", "workload_score", "work_life_balance", "overtime_hours",
    "deadline_pressure", "team_size", "remote_work_percentage" ]

/-- `feature_columns` in `TrainingService._load_training_data`
(`train.py`, lines 194-198). -/
def trainFeatureColumns : List String :=
  [ "work_hours_per_week", "meeting_hours_per_week", "email_count_per_day",
    "stress_level", "workload_score", "work_life_balance", "team_size",
    "remote_work_percentage", "overtime_hours", "deadline_pressure" ]

/-- `feature_columns` in `EvaluationService._load_test_data`
(`evaluate.py`, lines 249-253). -/
def evalFeatureColumns : List String :=
  [ "work_hours_per_week", "meeting_hours_per_week", "email_count_per_day",
    "stress_level", "workload_score", "work_life_balance", "team_size",
    "remote_work_percentage", "overtime_hours", "deadline_pressure" ]

/-- `PredictionService._prepare_features` (`predict.py`, lines 128-154):
start from an empty vector and, for each expected feature in order, append
`float(value)` when `features.get(feature, 0.0)` is an `int`/`float`
(booleans included), else append `0.0`. -/
def prepareFeatures (fm : FeatureMap) : List ℚ :=
  expectedFeatures.foldl
    (fun acc feature =>
      let value := getDefault fm feature (Value.num 0)
      if value.isNumber then acc ++ [value.toRat] else acc ++ [(0 : ℚ)])
    []

/-- The per-field vectorization rule of `_prepare_features`, factored out for
stating coordinatewise properties: a missing field or a non-numeric value
contributes `0`, a numeric value contributes its coercion. -/
def coordValue (fm : FeatureMap) (name : String) : ℚ :=
  match fm.lookup name with
  | some v => if v.isNumber then v.toRat else 0
  | Option.none => 0

theorem prepareFeatures_foldl (l : List String) (fm : FeatureMap) (acc : List ℚ) :
    l.foldl
      (fun acc feature =>
        let value := getDefault fm feature (Value.num 0)
        if value.isNumber then acc ++ [value.toRat] else acc ++ [(0 : ℚ)])
      acc = acc ++ l.map (coordValue fm) := by
  induction l generalizing acc with
  | nil => simp
  | cons x xs ih =>
    simp only [List.foldl_cons, List.map_cons, ih]
    rcases hx : fm.lookup x with _ | v
    · simp [getDefault, coordValue, hx, Value.isNumber, Value.toRat]
    · by_cases hn : v.isNumber
      · simp [getDefault, coordValue, hx, hn]
      · simp [getDefault, coordValue, hx, hn]

/-- `_prepare_features` is pointwise the defaulting rule, in the fixed order. -/
theorem prepareFeatures_eq_map (fm : FeatureMap) :
    prepareFeatures fm = expectedFeatures.map (coordValue fm) := by
  simpa using prepareFeatures_foldl expectedFeatures fm []

/-- `PredictionService._determine_risk_level` (`predict.py`, lines 156-165). -/
def determineRiskLevel (riskScore : ℚ) : String :=
  if riskScore < mkRat 3 10 then "low"
  else if riskScore < mkRat 6 10 then "medium"
  else if riskScore < mkRat 8 10 then "high"
  else "critical"

/-- The risk-level thresholding inlined in `BurnoutPredictionModel.predict_single`
(`simple_model.py`, lines 154-162). -/
def riskLevelOfScore (riskScore : ℚ) : String :=
  if riskScore < mkRat 3 10 then "low"
  else if riskScore < mkRat 6 10 then "medium"
  else if riskScore < mkRat 8 10 then "high"
  else "critical"

/-- The step function as the spec words it (half-open intervals, final closed
range): used only to compare the code's thresholding against the spec. -/
def specRiskLevel (riskScore : ℚ) : String :=
  if 0 ≤ riskScore ∧ riskScore < mkRat 3 10 then "low"
  else if mkRat 3 10 ≤ riskScore ∧ riskScore < mkRat 6 10 then "medium"
  else if mkRat 6 10 ≤ riskScore ∧ riskScore < mkRat 8 10 then "high"
  else "critical"

/-- One entry of the factors dict built by
`PredictionService._analyze_factors`: `{value, impact, description}`. -/
structure Factor where
  value : Value
  impact : String
  description : String
deriving DecidableEq

/-- Python's `v > q` comparison on a raw value: defined for numbers and
booleans (booleans compare as `0`/`1`), a `TypeError` (modelled as `none`)
otherwise. -/
def valueGt (v : Value) (q : ℚ) : Option Bool :=
  match v with
  | .num a => some (decide (q < a))
  | .bool b => some (decide (q < (if b then (1 : ℚ) else 0)))
  | _ => Option.none

/-- Python's `v < q` comparison on a raw value, same domain as `valueGt`. -/
def valueLt (v : Value) (q : ℚ) : Option Bool :=
  match v with
  | .num a => some (decide (a < q))
  | .bool b => some (decide ((if b then (1 : ℚ) else 0) < q))
  | _ => Option.none

/-- `PredictionService._analyze_factors` (`predict.py`, lines 167-207):
each of the four rules reads `features.get(name, 0)` and compares it against
its threshold; a factor entry is added when the rule fires.  A non-numeric
value makes the comparison raise (`Option.none` result).  The factors dict
keeps insertion order. -/
def analyzeFactors (fm : FeatureMap) : Option (List (String × Factor)) :=
  let workHours := getDefault fm "work_hours_per_week" (Value.num 0)
  let stressLevel := getDefault fm "stress_level" (Value.num 0)
  let workload := getDefault fm "workload_score" (Value.num 0)
  let workLifeBalance := getDefault fm "work_life_balance" (Value.num 0)
  match valueGt workHours 50, valueGt stressLevel 7,
        valueGt workload 8, valueLt workLifeBalance 3 with
  | some b1, some b2, some b3, some b4 =>
    some
      ((if b1 then
          [("excessive_hours",
            ⟨workHours, "high", "Working more than 50 hours per week"⟩)]
        else []) ++
       (if b2 then
          [("high_stress", ⟨stressLevel, "high", "High stress level reported"⟩)]
        else []) ++
       (if b3 then
          [("heavy_workload", ⟨workload, "medium", "Heavy workload reported"⟩)]
        else []) ++
       (if b4 then
          [("poor_work_life_balance",
            ⟨workLifeBalance, "high", "Poor work-life balance"⟩)]
        else []))
  | _, _, _, _ => Option.none

/-- Key membership in the factors dict (`'excessive_hours' in factors`). -/
def hasFactor (factors : List (String × Factor)) (key : String) : Bool :=
  (factors.lookup key).isSome

/-- `PredictionService._generate_recommendations` (`predict.py`,
lines 209-241): a fixed base list per risk level (the `else` branch of the
source serves `"critical"` and any other string), then one extra item per
present factor key, checked in the fixed order `excessive_hours`,
`high_stress`, `poor_work_life_balance`. -/
def generateRecommendations (riskLevel : String)
    (factors : List (String × Factor)) : List String :=
  let base :=
    if riskLevel = "low" then
      [ "Continue maintaining healthy work habits",
        "Regularly monitor your stress levels" ]
    else if riskLevel = "medium" then
      [ "Consider reducing work hours if possible",
        "Take regular breaks throughout the day",
        "Practice stress management techniques" ]
    else if riskLevel = "high" then
      [ "Urgent: Reduce workload and work hours",
        "Schedule regular time off",
        "Consider speaking with your manager about workload",
        "Seek professional help if needed" ]
    else
      [ "Immediate action required: Take time off",
        "Contact HR or management immediately",
        "Consider professional counseling",
        "Review and adjust work responsibilities" ]
  base ++
    (if hasFactor factors "excessive_hours" then
       ["Set strict work hour boundaries"] else []) ++
    (if hasFactor factors "high_stress" then
       ["Implement daily stress reduction activities"] else []) ++
    (if hasFactor factors "poor_work_life_balance" then
       ["Create clear boundaries between work and personal time"] else [])

/-- A resolved model as `PredictionService.predict` uses it:
`model.predict([v])[0]` and `model.predict_proba([v])[0]` on a single
feature vector.  The probability row is the pair `(p0, p1)`. -/
structure PModel where
  predictOne : List ℚ → ℚ
  predictProbaOne : List ℚ → ℚ × ℚ

/-- The deterministic fields of the prediction response built by
`PredictionService.predict` (the generated UUID and UTC timestamp are
omitted from the embedding). -/
structure PredictionResult where
  riskLevel : String
  riskScore : ℚ
  confidence : ℚ
  factors : List (String × Factor)
  recommendations : List String

/-- `PredictionService.predict` (`predict.py`, lines 82-126) after the model
has been resolved: vectorize, take `risk_score = model.predict([v])[0]` and
`risk_prob = model.predict_proba([v])[0]`, threshold the score, analyze
factors and generate recommendations. `confidence = max(risk_prob)`.
A `TypeError` inside `_analyze_factors` propagates (`Option.none`). -/
def predictService (m : PModel) (features : FeatureMap) :
    Option PredictionResult :=
  let featureVector := prepareFeatures features
  let riskScore := m.predictOne featureVector
  let riskProb := m.predictProbaOne featureVector
  let riskLevel := determineRiskLevel riskScore
  match analyzeFactors features with
  | some factors =>
    some
      { riskLevel := riskLevel
        riskScore := riskScore
        confidence := max riskProb.1 riskProb.2
        factors := factors
        recommendations := generateRecommendations riskLevel factors }
  | Option.none => Option.none

/-- The status values written into a training job record by
`TrainingService.start_training` / `_train_model` (`train.py`). -/
inductive Status where
  | started
  | initializing
  | loadingData
  | featureEngineering
  | preprocessing
  | training
  | evaluating
  | saving
  | completed
  | failed
deriving DecidableEq

/-- Position of a status in the forward order claimed by the spec
(`started → initializing → loading_data → feature_engineering/preprocessing
→ training → evaluating → saving → completed/failed`); the two mid-pipeline
preparation stages share a slot, and both terminal statuses share the last. -/
def statusRank : Status → ℕ
  | .started => 0
  | .initializing => 1
  | .loadingData => 2
  | .featureEngineering => 3
  | .preprocessing => 3
  | .training => 4
  | .evaluating => 5
  | .saving => 6
  | .completed => 7
  | .failed => 7

/-- A status is terminal when it is `completed` or `failed`. -/
def isTerminal : Status → Bool
  | .completed => true
  | .failed => true
  | _ => false

/-- Status writes on the successful comprehensive path of
`TrainingService._train_model` (`train.py`, lines 69-111): `started` is set
by `start_training`, then `initializing`, `loading_data`,
`feature_engineering`, and directly `completed`. -/
def comprehensiveTrace : List Status :=
  [.started, .initializing, .loadingData, .featureEngineering, .completed]

/-- Status writes on the successful legacy path of
`TrainingService._train_model` (`train.py`, lines 113-159): after
`feature_engineering` the code sets `loading_data` a second time, then
`preprocessing`, `training`, `evaluating`, `saving`, `completed`. -/
def legacyTrace : List Status :=
  [.started, .initializing, .loadingData, .featureEngineering, .loadingData,
   .preprocessing, .training, .evaluating, .saving, .completed]

/-- Successful status trace per branch (`legacy = true` for the non
"comprehensive" model types). -/
def successTrace (legacy : Bool) : List Status :=
  if legacy then legacyTrace else comprehensiveTrace

/-- The status trace of one training job: either the full successful trace,
or — when the background task raises after the `(k+1)`-st status write —
the corresponding prefix followed by the single `failed` write performed by
the `except` handler (`train.py`, lines 161-164). -/
def statusTrace (legacy : Bool) : Option ℕ → List Status
  | Option.none => successTrace legacy
  | some k => (successTrace legacy).dropLast.take (k + 1) ++ [.failed]

/-- Adjacent status pairs of a trace that move backwards in the claimed
forward order. -/
def backwardSteps (t : List Status) : List (Status × Status) :=
  (t.zip t.tail).filter (fun p => statusRank p.2 < statusRank p.1)

/-- Errors raised inside the dataset loaders of `train.py` and
`evaluate.py`: an unsupported file extension (`ValueError: Unsupported file
format`), an unparsable file, or a frame missing a required column. -/
inductive LoadError where
  | unsupportedFormat (path : String)
  | parseFailure
  | missingColumn
deriving DecidableEq

/-- A parsed data frame: named columns of (possibly missing, i.e. NaN)
numeric entries plus a row count. -/
structure Frame where
  nrows : ℕ
  columns : List (String × List (Option ℚ))

/-- `df[name]` lookup on a frame. -/
def Frame.col (df : Frame) (name : String) : Option (List (Option ℚ)) :=
  df.columns.lookup name

/-- Feature rows plus binary `burnout_risk` labels. -/
abbrev TrainData := List (List ℚ) × List Bool

/-- `_generate_target` (`train.py`, lines 231-239, duplicated in
`evaluate.py`): label a row positive when
`X0*0.3 + X3*0.4 + X4*0.3 > 0.5`. -/
def generateTarget (x : List (List ℚ)) : List Bool :=
  x.map (fun row =>
    decide (mkRat 1 2 <
      row.getD 0 0 * mkRat 3 10 + row.getD 3 0 * mkRat 4 10 + row.getD 4 0 * mkRat 3 10))

/-- `TrainingService._generate_dummy_data` (`train.py`, lines 210-229) draws
a seeded pseudo-random 1000×10 matrix and labels it with the threshold rule.
The NumPy generator is not reproduced here; the claims only use that the
fallback returns a dataset instead of raising, so the matrix is a fixed
placeholder while the labelling rule is kept. -/
def dummyTrainRows : List (List ℚ) :=
  [List.replicate 10 (mkRat 1 2)]

/-- The dataset returned by the training loader's dummy-data fallback. -/
def generateDummyTrainData : TrainData :=
  (dummyTrainRows, generateTarget dummyTrainRows)

/-- `EvaluationService._generate_dummy_test_data` (`evaluate.py`,
lines 265-283): same shape of fallback (seed 123, 200 rows), abstracted the
same way. -/
def dummyTestRows : List (List ℚ) :=
  [List.replicate 10 (mkRat 1 4)]

/-- The dataset returned by the test loader's dummy-data fallback. -/
def generateDummyTestData : TrainData :=
  (dummyTestRows, generateTarget dummyTestRows)

/-- Python's `str.endswith` on the dataset path (embedded over the
character list so that it evaluates). -/
def pathEndsWith (s suffix : String) : Bool :=
  suffix.data.isSuffixOf s.data

/-- The file system and parsers seen by the dataset loaders:
`os.path.exists`, `pd.read_csv`, `pd.read_json` (`Option.none` models a
parser exception). -/
structure DataFS where
  present : String → Bool
  parseCSV : String → Option Frame
  parseJSON : String → Option Frame

/-- `df[feature_columns].fillna(0).values` and the label column, for a given
ordered column list: fails when a required column is absent (`KeyError`);
NaN entries become `0`; `burnout_risk` is used when present, else the
synthetic target rule. -/
def selectXY (featureCols : List String) (df : Frame) :
    Except LoadError TrainData :=
  match featureCols.mapM df.col with
  | some cols =>
    let x := (List.range df.nrows).map
      (fun i => cols.map (fun c => (c.getD i Option.none).getD 0))
    let y :=
      match df.col "burnout_risk" with
      | some yc =>
        (List.range df.nrows).map
          (fun i => decide ((yc.getD i Option.none).getD 0 ≠ 0))
      | Option.none => generateTarget x
    .ok (x, y)
  | Option.none => .error .missingColumn

/-- The body of the `try` block of `TrainingService._load_training_data`
(`train.py`, lines 177-203): missing path → dummy data; `.csv`/`.json` →
parse and select columns; any other extension → raise
`ValueError("Unsupported file format: ...")`. -/
def loadTrainingDataCore (fs : DataFS) (path : String) :
    Except LoadError TrainData :=
  if fs.present path then
    if pathEndsWith path ".csv" then
      match fs.parseCSV path with
      | some df => selectXY trainFeatureColumns df
      | Option.none => .error .parseFailure
    else if pathEndsWith path ".json" then
      match fs.parseJSON path with
      | some df => selectXY trainFeatureColumns df
      | Option.none => .error .parseFailure
    else .error (.unsupportedFormat path)
  else .ok generateDummyTrainData

/-- `TrainingService._load_training_data` as its caller sees it: the
`except` clause (`train.py`, lines 205-208) catches every exception from the
`try` body and falls back to dummy data, so the function always returns a
dataset. -/
def loadTrainingData (fs : DataFS) (path : String) : TrainData :=
  match loadTrainingDataCore fs path with
  | .ok d => d
  | .error _ => generateDummyTrainData

/-- The body of the `try` block of `EvaluationService._load_test_data`
(`evaluate.py`, lines 232-258), same structure as the training loader. -/
def loadTestDataCore (fs : DataFS) (path : String) :
    Except LoadError TrainData :=
  if fs.present path then
    if pathEndsWith path ".csv" then
      match fs.parseCSV path with
      | some df => selectXY evalFeatureColumns df
      | Option.none => .error .parseFailure
    else if pathEndsWith path ".json" then
      match fs.parseJSON path with
      | some df => selectXY evalFeatureColumns df
      | Option.none => .error .parseFailure
    else .error (.unsupportedFormat path)
  else .ok generateDummyTestData

/-- `EvaluationService._load_test_data` as its caller sees it: the `except`
clause (`evaluate.py`, lines 260-263) catches every exception and falls back
to dummy test data. -/
def loadTestData (fs : DataFS) (path : String) : TrainData :=
  match loadTestDataCore fs path with
  | .ok d => d
  | .error _ => generateDummyTestData

/-- False negatives in a list of `(true label, predicted label)` pairs
(`true` = class 1). -/
def countFN (ps : List (Bool × Bool)) : ℕ :=
  (ps.filter (fun p => p.1 && !p.2)).length

/-- False positives. -/
def countFP (ps : List (Bool × Bool)) : ℕ :=
  (ps.filter (fun p => !p.1 && p.2)).length

/-- True positives. -/
def countTP (ps : List (Bool × Bool)) : ℕ :=
  (ps.filter (fun p => p.1 && p.2)).length

/-- True negatives. -/
def countTN (ps : List (Bool × Bool)) : ℕ :=
  (ps.filter (fun p => !p.1 && !p.2)).length

/-- Whether both class labels occur somewhere in the true or predicted
columns: exactly when sklearn's `confusion_matrix` is 2×2, i.e.
`cm.size == 4` in `_calculate_business_metrics` (`evaluate.py`, line 140). -/
def bothClassesPresent (ps : List (Bool × Bool)) : Bool :=
  ps.any (fun p => p.1 || p.2) && ps.any (fun p => !p.1 || !p.2)

/-- `tn, fp, fn, tp = cm.ravel() if cm.size == 4 else (0, 0, 0, 0)`. -/
def cmCounts (ps : List (Bool × Bool)) : ℕ × ℕ × ℕ × ℕ :=
  if bothClassesPresent ps then (countTN ps, countFP ps, countFN ps, countTP ps)
  else (0, 0, 0, 0)

/-- The confusion-matrix-derived entries of
`EvaluationService._calculate_business_metrics` (`evaluate.py`,
lines 134-153).  The probability-dependent entries (risk stratification,
mean confidences) take no part in any claim and are omitted. -/
structure BusinessMetrics where
  truePositiveRate : ℚ
  falsePositiveRate : ℚ
  precision : ℚ
  totalCost : ℕ
  costPerPrediction : ℚ
deriving DecidableEq

/-- `EvaluationService._calculate_business_metrics`: rates guarded by
zero-denominator checks, `total_cost = fn*100 + fp*10` with
`cost_false_negative = 100`, `cost_false_positive = 10`, and
`cost_per_prediction = total_cost / len(y_true)` (`0.0` on an empty
sample set). -/
def calculateBusinessMetrics (ps : List (Bool × Bool)) : BusinessMetrics :=
  let c := cmCounts ps
  let tn := c.1
  let fp := c.2.1
  let fn := c.2.2.1
  let tp := c.2.2.2
  let costFalseNegative : ℕ := 100
  let costFalsePositive : ℕ := 10
  let totalCost := fn * costFalseNegative + fp * costFalsePositive
  { truePositiveRate := if tp + fn > 0 then (tp : ℚ) / (tp + fn) else 0
    falsePositiveRate := if fp + tn > 0 then (fp : ℚ) / (fp + tn) else 0
    precision := if tp + fp > 0 then (tp : ℚ) / (tp + fp) else 0
    totalCost := totalCost
    costPerPrediction :=
      if ps.length > 0 then (totalCost : ℚ) / ps.length else 0 }

/-- A persisted model as `EvaluationService.evaluate` uses it after
`joblib.load`: class predictions over a batch of rows.  (`predict_proba`
feeds only the omitted probability metrics and the external evaluator.) -/
structure EModel where
  predictList : List (List ℚ) → List Bool

/-- The environment of one `EvaluationService.evaluate` call:
`os.path.exists` on `models/{version}.joblib`, `joblib.load`, the dataset
file system, the generated evaluation UUID, and the outputs of the external
collaborators (`ComprehensiveEvaluator`, `SHAPAnalyzer`) that are not part
of this repository's sources. -/
structure EvalDeps where
  modelPresent : String → Bool
  loadModel : String → EModel
  dataFS : DataFS
  evalId : String
  comprehensiveMetrics : List (String × ℚ)
  shapResult : Option (List (String × ℚ))

/-- The evaluation record stored in `evaluation_jobs` (dates and the
qualitative summary omitted; the summary is a pure function of the external
evaluator's metrics). -/
structure EvalRecord where
  evaluationId : String
  modelVersion : String
  testSamples : ℕ
  metrics : List (String × ℚ)
  businessMetrics : BusinessMetrics
  shapAnalysis : Option (List (String × ℚ))

/-- The error raised by `EvaluationService.evaluate` when no persisted model
file exists for the requested version (`ValueError(f"Model ... not found")`,
`evaluate.py`, lines 61-63) — the spec's `ModelNotFoundError`. -/
inductive EvalError where
  | modelNotFound (version : String)
deriving DecidableEq

/-- `EvaluationService.evaluate` (`evaluate.py`, lines 52-124) as a state
transformer on the `evaluation_jobs` table: check the model file, load the
model and test data, predict, compute business metrics, assemble the record
and append it to the table.  The `except` clause re-raises, so an error
leaves the table untouched. -/
def evaluateService (deps : EvalDeps) (jobs : List (String × EvalRecord))
    (modelVersion testPath : String) :
    Except EvalError EvalRecord × List (String × EvalRecord) :=
  if deps.modelPresent modelVersion then
    let model := deps.loadModel modelVersion
    let td := loadTestData deps.dataFS testPath
    let yPred := model.predictList td.1
    let businessMetrics := calculateBusinessMetrics (td.2.zip yPred)
    let record : EvalRecord :=
      { evaluationId := deps.evalId
        modelVersion := modelVersion
        testSamples := td.1.length
        metrics := deps.comprehensiveMetrics
        businessMetrics := businessMetrics
        shapAnalysis := deps.shapResult }
    (.ok record, jobs ++ [(deps.evalId, record)])
  else
    (.error (.modelNotFound modelVersion), jobs)

/-- C5: for every nonnegative risk score, the risk level computed by
`PredictionService._determine_risk_level` and by the thresholding inlined in
`BurnoutPredictionModel.predict_single` is the spec's step function:
[0, 0.3) → "low", [0.3, 0.6) → "medium", [0.6, 0.8) → "high",
0.8 and above → "critical", inclusive-low / exclusive-high boundaries. -/
theorem C5_risk_level_step_function (q : ℚ) (hq : 0 ≤ q) :
    determineRiskLevel q = specRiskLevel q ∧
    riskLevelOfScore q = specRiskLevel q := by
  unfold determineRiskLevel riskLevelOfScore specRiskLevel
  rcases lt_or_le q (mkRat 3 10) with h1 | h1
  · rw [if_pos h1, if_pos (show 0 ≤ q ∧ q < mkRat 3 10 from ⟨hq, h1⟩)]
    exact ⟨rfl, rfl⟩
  · have hs1 : ¬ (0 ≤ q ∧ q < mkRat 3 10) := fun hc => absurd hc.2 (not_lt.2 h1)
    rcases lt_or_le q (mkRat 6 10) with h2 | h2
    · rw [if_neg (not_lt.2 h1), if_pos h2, if_neg hs1,
        if_pos (show mkRat 3 10 ≤ q ∧ q < mkRat 6 10 from ⟨h1, h2⟩)]
      exact ⟨rfl, rfl⟩
    · have hs2 : ¬ (mkRat 3 10 ≤ q ∧ q < mkRat 6 10) :=
        fun hc => absurd hc.2 (not_lt.2 h2)
      rcases lt_or_le q (mkRat 8 10) with h3 | h3
      · rw [if_neg (not_lt.2 h1), if_neg (not_lt.2 h2), if_pos h3, if_neg hs1,
          if_neg hs2, if_pos (show mkRat 6 10 ≤ q ∧ q < mkRat 8 10 from ⟨h2, h3⟩)]
        exact ⟨rfl, rfl⟩
      · have hs3 : ¬ (mkRat 6 10 ≤ q ∧ q < mkRat 8 10) :=
          fun hc => absurd hc.2 (not_lt.2 h3)
        rw [if_neg (not_lt.2 h1), if_neg (not_lt.2 h2), if_neg (not_lt.2 h3),
          if_neg hs1, if_neg hs2, if_neg hs3]
        exact ⟨rfl, rfl⟩

/-- C5 witness: the theorem applied at the concrete scores 0, 0.3, 0.6 and
0.8, each landing on the inclusive-low side of a boundary. -/
theorem C5_risk_level_step_function_witness :
    determineRiskLevel 0 = "low" ∧ determineRiskLevel (mkRat 3 10) = "medium" ∧
    riskLevelOfScore (mkRat 6 10) = "high" ∧
    determineRiskLevel (mkRat 8 10) = "critical" := by
  refine ⟨?_, ?_, ?_, ?_⟩
  · rw [(C5_risk_level_step_function 0 (by decide)).1]; decide
  · rw [(C5_risk_level_step_function (mkRat 3 10) (by decide)).1]; decide
  · rw [(C5_risk_level_step_function (mkRat 6 10) (by decide)).2]; decide
  · rw [(C5_risk_level_step_function (mkRat 8 10) (by decide)).1]; decide

/-- C6: `_prepare_features` is total and returns exactly 10 entries in the
fixed canonical order; each coordinate is the input's value coerced to a
number when present and numeric, else 0. -/
theorem C6_vectorize_total (fm : FeatureMap) :
    (prepareFeatures fm).length = 10 ∧
    ∀ i : ℕ, i < 10 →
      (prepareFeatures fm).getD i 0 = coordValue fm (expectedFeatures.getD i "") := by
  rw [prepareFeatures_eq_map]
  refine ⟨by simp [expectedFeatures], ?_⟩
  intro i hi
  interval_cases i <;> rfl

/-- C6 witness: the theorem applied to a concrete mapping holding one
numeric field, one non-numeric field, and nothing else. -/
theorem C6_vectorize_total_witness :
    (prepareFeatures
        [("work_hours_per_week", Value.num 55), ("stress_level", Value.str "high")]).length
      = 10 ∧
    (prepareFeatures
        [("work_hours_per_week", Value.num 55), ("stress_level", Value.str "high")]).getD 0 0
      = coordValue
          [("work_hours_per_week", Value.num 55), ("stress_level", Value.str "high")]
          (expectedFeatures.getD 0 "") ∧
    (prepareFeatures
        [("work_hours_per_week", Value.num 55), ("stress_level", Value.str "high")]).getD 3 0
      = coordValue
          [("work_hours_per_week", Value.num 55), ("stress_level", Value.str "high")]
          (expectedFeatures.getD 3 "") := by
  refine ⟨(C6_vectorize_total _).1, ?_, ?_⟩
  · exact (C6_vectorize_total _).2 0 (by decide)
  · exact (C6_vectorize_total _).2 3 (by decide)

theorem fn_fp_zero_of_one_class (ps : List (Bool × Bool))
    (h : bothClassesPresent ps = false) : countFN ps = 0 ∧ countFP ps = 0 := by
  have key : ∀ f : Bool × Bool → Bool,
      (∀ p ∈ ps, ¬ f p = true) → (ps.filter f).length = 0 := fun f hf => by
    rw [List.length_eq_zero, List.filter_eq_nil_iff]
    exact hf
  unfold bothClassesPresent at h
  rcases Bool.and_eq_false_iff.mp h with h1 | h1 <;>
    rw [List.any_eq_false] at h1 <;>
    refine ⟨key _ ?_, key _ ?_⟩ <;>
    · intro p hp
      have hpf := h1 p hp
      revert hpf
      rcases p with ⟨x, y⟩
      cases x <;> cases y <;> simp

/-- C8: the business cost metric of
`EvaluationService._calculate_business_metrics` is exactly
`fn * 100 + fp * 10` for every list of (label, prediction) pairs — also
through the degenerate `cm.size != 4` branch, where both counts are zero —
`cost_per_prediction` is that total divided by the sample count (0 for an
empty sample set), and a sample set with fn = 3 and fp = 2 costs exactly
320. -/
theorem C8_business_cost (ps : List (Bool × Bool)) :
    (calculateBusinessMetrics ps).totalCost = countFN ps * 100 + countFP ps * 10 ∧
    (calculateBusinessMetrics ps).costPerPrediction =
      (if ps.length > 0
       then ((calculateBusinessMetrics ps).totalCost : ℚ) / ps.length else 0) ∧
    (calculateBusinessMetrics
        [(true, false), (true, false), (true, false),
         (false, true), (false, true), (true, true)]).totalCost = 320 := by
  refine ⟨?_, ?_, by decide⟩
  · unfold calculateBusinessMetrics cmCounts
    cases h : bothClassesPresent ps
    · obtain ⟨hfn, hfp⟩ := fn_fp_zero_of_one_class ps h
      simp [hfn, hfp]
    · simp
  · unfold calculateBusinessMetrics
    rfl

/-- C9: `_generate_recommendations` is a pure function of
`(risk_level, factors)`: 2 fixed base items for "low", 3 for "medium",
4 for "high" and 4 for "critical", followed by one extra item per present
factor key, checked in the order `excessive_hours`, `high_stress`,
`poor_work_life_balance`; in particular "high" with exactly the
`excessive_hours` factor yields the 4 high-level items followed by the
boundary-setting tip. -/
theorem C9_recommendations (factors : List (String × Factor)) :
    ((generateRecommendations "low" factors).length =
      2 + ((if hasFactor factors "excessive_hours" then 1 else 0) +
           (if hasFactor factors "high_stress" then 1 else 0) +
           (if hasFactor factors "poor_work_life_balance" then 1 else 0))) ∧
    ((generateRecommendations "medium" factors).length =
      3 + ((if hasFactor factors "excessive_hours" then 1 else 0) +
           (if hasFactor factors "high_stress" then 1 else 0) +
           (if hasFactor factors "poor_work_life_balance" then 1 else 0))) ∧
    ((generateRecommendations "high" factors).length =
      4 + ((if hasFactor factors "excessive_hours" then 1 else 0) +
           (if hasFactor factors "high_stress" then 1 else 0) +
           (if hasFactor factors "poor_work_life_balance" then 1 else 0))) ∧
    ((generateRecommendations "critical" factors).length =
      4 + ((if hasFactor factors "excessive_hours" then 1 else 0) +
           (if hasFactor factors "high_stress" then 1 else 0) +
           (if hasFactor factors "poor_work_life_balance" then 1 else 0))) ∧
    generateRecommendations "high"
        [("excessive_hours",
          ⟨Value.num 55, "high", "Working more than 50 hours per week"⟩)] =
      [ "Urgent: Reduce workload and work hours",
        "Schedule regular time off",
        "Consider speaking with your manager about workload",
        "Seek professional help if needed",
        "Set strict work hour boundaries" ] := by
  refine ⟨?_, ?_, ?_, ?_, by decide⟩ <;>
    · unfold generateRecommendations
      cases hasFactor factors "excessive_hours" <;>
        cases hasFactor factors "high_stress" <;>
        cases hasFactor factors "poor_work_life_balance" <;> simp

/-- C10: when the raw mapping has no `work_life_balance` key,
`_analyze_factors` defaults it to `0`, the `work_life_balance < 3` rule
fires, and the returned factors dict reports `poor_work_life_balance` with
value 0 — a missing field is indistinguishable from a reported very poor
balance. -/
theorem C10_missing_wlb_flagged (fm : FeatureMap)
    (habs : fm.lookup "work_life_balance" = Option.none)
    (factors : List (String × Factor))
    (hres : analyzeFactors fm = some factors) :
    factors.lookup "poor_work_life_balance" =
      some ⟨Value.num 0, "high", "Poor work-life balance"⟩ := by
  unfold analyzeFactors at hres
  have hwlb : getDefault fm "work_life_balance" (Value.num 0) = Value.num 0 := by
    rw [getDefault, habs]; rfl
  simp only [hwlb] at hres
  rcases hg1 : valueGt (getDefault fm "work_hours_per_week" (Value.num 0)) 50
    with _ | b1 <;> simp only [hg1] at hres
  · simp at hres
  rcases hg2 : valueGt (getDefault fm "stress_level" (Value.num 0)) 7
    with _ | b2 <;> simp only [hg2] at hres
  · simp at hres
  rcases hg3 : valueGt (getDefault fm "workload_score" (Value.num 0)) 8
    with _ | b3 <;> simp only [hg3] at hres
  · simp at hres
  have hlt : valueLt (Value.num 0) 3 = some true := by decide
  simp only [hlt, Option.some.injEq] at hres
  subst hres
  cases b1 <;> cases b2 <;> cases b3 <;> rfl

/-- C10 witness: the theorem applied to the empty mapping, on which
`_analyze_factors` returns exactly the poor-work-life-balance factor. -/
theorem C10_missing_wlb_flagged_witness :
    (analyzeFactors [] = some
      [("poor_work_life_balance",
        ⟨Value.num 0, "high", "Poor work-life balance"⟩)]) ∧
    (List.lookup "poor_work_life_balance"
        [("poor_work_life_balance",
          ⟨Value.num 0, "high", "Poor work-life balance"⟩)] =
      some (⟨Value.num 0, "high", "Poor work-life balance"⟩ : Factor)) := by
  have h : analyzeFactors [] = some
      [("poor_work_life_balance",
        ⟨Value.num 0, "high", "Poor work-life balance"⟩)] := by decide
  exact ⟨h, C10_missing_wlb_flagged [] rfl _ h⟩

/-- A model whose class prediction is 1 while its probability row is
(0.4, 0.6): the situation of any trained binary classifier that predicts
the positive class with probability 0.6. -/
def probaModel : PModel :=
  { predictOne := fun _ => 1
    predictProbaOne := fun _ => (mkRat 2 5, mkRat 3 5) }

/-- C1: evaluation of `PredictionService.predict` at a concrete resolved
model showing the divergence from the claim: the code takes `risk_score`
from `model.predict([vector])[0]` (here 1), not from
`predict_proba([vector])[0][1]` (here 0.6), while `confidence` is indeed
`max(predict_proba([vector])[0])` (here 0.6). -/
theorem C1_risk_score_from_predict :
    ((predictService probaModel []).map PredictionResult.riskScore) = some 1 ∧
    ((predictService probaModel []).map PredictionResult.confidence) =
      some (mkRat 3 5) ∧
    (probaModel.predictProbaOne (prepareFeatures [])).2 = mkRat 3 5 ∧
    (1 : ℚ) ≠ mkRat 3 5 := by
  refine ⟨?_, ?_, rfl, by decide⟩ <;> decide

/-- C2 counterexample: the three feature-name lists are not all equal —
`BurnoutPredictionModel.feature_names` orders positions 6-9 differently
from `_prepare_features` and `_load_training_data`. -/
theorem C2_feature_order_counterexample :
    ¬ (expectedFeatures = modelFeatureNames ∧
       modelFeatureNames = trainFeatureColumns) := by
  decide

/-- C2 (amended): the inference-time list of `_prepare_features` equals the
training-time list of `_load_training_data` element-by-element, but
`BurnoutPredictionModel.feature_names`, while containing the same 10 names,
lists them in a different order — at index 6 it has `overtime_hours` where
the other two lists have `team_size`. -/
theorem C2_feature_order_amended :
    expectedFeatures = trainFeatureColumns ∧
    modelFeatureNames ≠ trainFeatureColumns ∧
    modelFeatureNames.length = 10 ∧
    trainFeatureColumns.length = 10 ∧
    modelFeatureNames.all (fun s => trainFeatureColumns.contains s) = true ∧
    trainFeatureColumns.all (fun s => modelFeatureNames.contains s) = true ∧
    modelFeatureNames.getD 6 "" = "overtime_hours" ∧
    trainFeatureColumns.getD 6 "" = "team_size" := by
  decide

/-- A file system holding one file `data.xlsx` that no parser handles. -/
def fsXlsx : DataFS :=
  { present := fun p => p == "data.xlsx"
    parseCSV := fun _ => Option.none
    parseJSON := fun _ => Option.none }

/-- C3 counterexample: on an existing dataset path with an unsupported
extension, both loaders raise the unsupported-format error inside their
`try` body, but their own `except` handler swallows it, and the caller of
the load operation receives synthesized dummy data instead of a failure. -/
theorem C3_unsupported_format_counterexample :
    loadTrainingDataCore fsXlsx "data.xlsx" =
      .error (.unsupportedFormat "data.xlsx") ∧
    loadTrainingData fsXlsx "data.xlsx" = generateDummyTrainData ∧
    loadTestDataCore fsXlsx "data.xlsx" =
      .error (.unsupportedFormat "data.xlsx") ∧
    loadTestData fsXlsx "data.xlsx" = generateDummyTestData := by
  refine ⟨?_, ?_, ?_, ?_⟩ <;> rfl

/-- C3 (amended): for every existing dataset path whose extension is
neither `.csv` nor `.json`, the `try` body of `_load_training_data` and of
`_load_test_data` raises the unsupported-format `ValueError`, the handler
catches it, and the caller receives the dummy dataset — no error is
surfaced. -/
theorem C3_unsupported_format_amended (fs : DataFS) (path : String)
    (hp : fs.present path = true)
    (hc : pathEndsWith path ".csv" = false)
    (hj : pathEndsWith path ".json" = false) :
    loadTrainingDataCore fs path = .error (.unsupportedFormat path) ∧
    loadTrainingData fs path = generateDummyTrainData ∧
    loadTestDataCore fs path = .error (.unsupportedFormat path) ∧
    loadTestData fs path = generateDummyTestData := by
  have hcore : loadTrainingDataCore fs path = .error (.unsupportedFormat path) := by
    unfold loadTrainingDataCore
    simp [hp, hc, hj]
  have hcoreT : loadTestDataCore fs path = .error (.unsupportedFormat path) := by
    unfold loadTestDataCore
    simp [hp, hc, hj]
  refine ⟨hcore, ?_, hcoreT, ?_⟩
  · unfold loadTrainingData
    rw [hcore]
  · unfold loadTestData
    rw [hcoreT]

/-- A file system on which every path exists and nothing parses. -/
def fsAllPresent : DataFS :=
  { present := fun _ => true
    parseCSV := fun _ => Option.none
    parseJSON := fun _ => Option.none }

/-- C3 witness: the amended theorem applied to the concrete path
`dataset.txt` on a file system where the file exists. -/
theorem C3_unsupported_format_amended_witness :
    loadTrainingDataCore fsAllPresent "dataset.txt" =
      .error (.unsupportedFormat "dataset.txt") ∧
    loadTrainingData fsAllPresent "dataset.txt" = generateDummyTrainData ∧
    loadTestDataCore fsAllPresent "dataset.txt" =
      .error (.unsupportedFormat "dataset.txt") ∧
    loadTestData fsAllPresent "dataset.txt" = generateDummyTestData :=
  C3_unsupported_format_amended fsAllPresent "dataset.txt" rfl (by decide) (by decide)

/-- C7: evaluating an unknown model version fails with the
model-not-found error before anything else runs, and the stored
`evaluation_jobs` table is returned unchanged. -/
theorem C7_unknown_model_no_mutation (deps : EvalDeps)
    (jobs : List (String × EvalRecord)) (modelVersion testPath : String)
    (h : deps.modelPresent modelVersion = false) :
    evaluateService deps jobs modelVersion testPath =
      (.error (.modelNotFound modelVersion), jobs) := by
  unfold evaluateService
  rw [h]
  simp

/-- Concrete evaluation environment with no persisted models. -/
def emptyEvalDeps : EvalDeps :=
  { modelPresent := fun _ => false
    loadModel := fun _ => { predictList := fun _ => [] }
    dataFS := fsAllPresent
    evalId := "eval-1"
    comprehensiveMetrics := []
    shapResult := Option.none }

/-- C7 witness: the theorem applied to an environment with no models, an
empty job table and the version string `v9`. -/
theorem C7_unknown_model_no_mutation_witness :
    evaluateService emptyEvalDeps [] "v9" "test.csv" =
      (.error (.modelNotFound "v9"), []) :=
  C7_unknown_model_no_mutation emptyEvalDeps [] "v9" "test.csv" rfl

/-- A status trace moves only forward in the claimed order: no adjacent
pair of writes decreases the rank. -/
def forwardOrdered (t : List Status) : Prop :=
  backwardSteps t = []

/-- C4 counterexample: the claim fails on the legacy training path — its
successful status trace transitions from `feature_engineering` back to
`loading_data`, an earlier status, so the sequence is not forward-only. -/
theorem C4_status_order_counterexample :
    ¬ forwardOrdered (statusTrace true Option.none) := by
  unfold forwardOrdered statusTrace successTrace legacyTrace
  decide

/-- C4 (amended): the comprehensive path's status writes move only forward;
the legacy path makes exactly one backward transition, from
`feature_engineering` back to `loading_data` (the code re-enters the
loading stage before `preprocessing`); and on either path, for every
possible trace — successful or failed after any number of status writes —
no terminal status occurs before the last position and the final status is
exactly one terminal: `completed` on success, `failed` on error. -/
theorem C4_status_order_amended :
    forwardOrdered (statusTrace false Option.none) ∧
    backwardSteps (statusTrace true Option.none) =
      [(Status.featureEngineering, Status.loadingData)] ∧
    ∀ legacy : Bool, ∀ failAfter : Option ℕ,
      (statusTrace legacy failAfter).dropLast.all
          (fun s => !(isTerminal s)) = true ∧
      (statusTrace legacy failAfter).getLast? =
        some (if failAfter.isSome then Status.failed else Status.completed) := by
  refine ⟨by unfold forwardOrdered statusTrace successTrace comprehensiveTrace; decide,
          by unfold backwardSteps statusTrace successTrace legacyTrace; decide, ?_⟩
  intro legacy failAfter
  rcases failAfter with _ | k
  · cases legacy <;>
      simp [statusTrace, successTrace, comprehensiveTrace, legacyTrace, isTerminal]
  · have hpre : ((successTrace legacy).dropLast).all (fun s => !(isTerminal s)) = true := by
      cases legacy <;>
        simp [successTrace, comprehensiveTrace, legacyTrace, isTerminal]
    constructor
    · show ((successTrace legacy).dropLast.take (k + 1) ++ [Status.failed]).dropLast.all _ = true
      rw [List.dropLast_concat]
      rw [List.all_eq_true] at hpre ⊢
      intro s hs
      exact hpre s (List.take_subset (k + 1) _ hs)
    · show ((successTrace legacy).dropLast.take (k + 1) ++ [Status.failed]).getLast? = _
      rw [List.getLast?_concat]
      rfl

end Burnout
